import Mathlib

/-!
# SalinTranslateV3 — formal model of the real-time audio session core

A shallow embedding of the conversation state machine in `src/App.tsx`
(and, where they differ, the variant component in `src/unnamed/part_000`):
the transport message handler (`onmessage`), playback completion
(`onended`), transport errors (`onerror`), the capture callback
(`onaudioprocess`), resource teardown (`cleanupResources`), the wake-word
recognizer callbacks, and the transcript CLEAR button.

Machine integers do not appear in this core; device-clock times and buffer
durations are modelled as rationals, transcript text as `String`, and the
Active Playback Set as a list of fresh handle identifiers together with a
log of `stop()` calls and of scheduled `(handle, startTime, duration)`
triples.
-/

namespace Salin

/-- `AppState` from `src/types.ts`. -/
inductive Phase where
  | IDLE
  | SLEEP
  | STANDBY
  | CONNECTING
  | LISTENING
  | SPEAKING
  | RECONNECTING
  | ERROR
deriving DecidableEq, Repr

/-- `Mood` from `src/types.ts`: the closed mood enumeration. -/
inductive Mood where
  | NEUTRAL
  | HAPPY
  | SAD
  | SURPRISED
  | THINKING
  | ANGRY
  | EXCITED
  | CONFUSED
deriving DecidableEq, Repr

/-- The runtime value held by the `mood` React state variable. The
intended values are members of the `Mood` enumeration, but the compiled
string-enum object inherits from `Object.prototype`, so the lookup guard
in the tool-call handler can pass for an inherited key; `setMood` then
receives a function (which React invokes as a state updater) or, for
`"__proto__"`, an object — either way the state takes a value outside the
enumeration, recorded here as `corrupt` tagged with the looked-up key. -/
inductive MoodVal where
  | mood (m : Mood)
  | corrupt (key : String)
deriving DecidableEq, Repr

/-- The `role` field of `TranscriptEntry` (`'user' | 'model'`). -/
inductive Role where
  | user
  | model
deriving DecidableEq, Repr

/-- `TranscriptEntry` from `src/types.ts`; at runtime the `mood` field
receives whatever value `moodRef.current` holds, hence `MoodVal`. -/
structure Entry where
  role : Role
  text : String
  timestamp : Nat
  mood : Option MoodVal
deriving DecidableEq, Repr

/-- Own-property lookup on the compiled `Mood` string-enum object:
`some` exactly on the eight declared keys. -/
def moodOfString : String → Option Mood
  | "NEUTRAL" => some Mood.NEUTRAL
  | "HAPPY" => some Mood.HAPPY
  | "SAD" => some Mood.SAD
  | "SURPRISED" => some Mood.SURPRISED
  | "THINKING" => some Mood.THINKING
  | "ANGRY" => some Mood.ANGRY
  | "EXCITED" => some Mood.EXCITED
  | "CONFUSED" => some Mood.CONFUSED
  | _ => none

/-- The property keys the compiled enum object inherits from
`Object.prototype`; every one of these looks up to a function — or, for
`"__proto__"`, to `Object.prototype` itself — and is therefore truthy. -/
def objectProtoKeys : List String :=
  ["constructor", "hasOwnProperty", "isPrototypeOf", "propertyIsEnumerable",
   "toLocaleString", "toString", "valueOf", "__proto__",
   "__defineGetter__", "__defineSetter__", "__lookupGetter__",
   "__lookupSetter__"]

/-- The value of `Mood[s as keyof typeof Mood]` on the compiled enum
object, prototype chain included: a member string for an own key, a
truthy non-`Mood` value for an inherited `Object.prototype` key, and the
falsy `undefined` otherwise. -/
inductive LookupResult where
  | member (m : Mood)
  | inherited (key : String)
  | undef
deriving DecidableEq, Repr

/-- Full JavaScript property lookup `Mood[s]`, prototype chain included. -/
def moodLookup (s : String) : LookupResult :=
  match moodOfString s with
  | some mo => LookupResult.member mo
  | none =>
    if objectProtoKeys.contains s then LookupResult.inherited s
    else LookupResult.undef

/-- `a.startsWith b` on character lists (needle first). -/
def startsWithL : List Char → List Char → Bool
  | [], _ => true
  | _ :: _, [] => false
  | a :: as, b :: bs => a == b && startsWithL as bs

/-- Occurrence of `needle` anywhere in the haystack (character lists). -/
def occursInL : List Char → List Char → Bool
  | n, [] => startsWithL n []
  | n, c :: cs => startsWithL n (c :: cs) || occursInL n cs

/-- JavaScript `hay.includes(needle)` on strings. -/
def strIncludes (hay needle : String) : Bool :=
  occursInL needle.data hay.data

/-- JavaScript `s.trim()`: strip leading and trailing whitespace. -/
def jsTrim (s : String) : String :=
  ⟨((s.data.dropWhile Char.isWhitespace).reverse.dropWhile
      Char.isWhitespace).reverse⟩

/-- One entry of `message.toolCall.functionCalls`: id, name, and the
`mood` argument (absent when the args carry no `mood` key). -/
structure ToolCall where
  id : String
  name : String
  moodArg : Option String
deriving DecidableEq, Repr

/-- One inbound audio chunk, abstracted to what the handler observes:
`malformed` when `decode`/`decodeAudioData` throws, otherwise the decoded
byte length and the resulting buffer duration in seconds. -/
inductive AudioChunk where
  | malformed
  | ok (len : Nat) (dur : ℚ)
deriving DecidableEq, Repr

/-- The fields of a `LiveServerMessage` that the handler reads. -/
structure Msg where
  toolCalls : Option (List ToolCall) := none
  outputTranscriptionText : Option String := none
  inputTranscriptionText : Option String := none
  audio : Option AudioChunk := none
  turnComplete : Bool := false
  interrupted : Bool := false
deriving DecidableEq, Repr

/-- Outbound transport calls. -/
inductive Out where
  | toolResponse (id name result : String)
  | realtimeAudio (frame : List ℚ)
deriving DecidableEq, Repr

/-- The mutable session state held in the App component's refs and React
state: phase, mood, transcript log, error text, the Active Playback Set
(`sourcesRef`, as a list of handle ids), the playback cursor
(`nextStartTimeRef`), the two transcript accumulators, the closing flag,
whether the transport session and output audio context are open, a fresh
handle counter, and observation logs of `stop()` calls and scheduled
buffers. -/
structure St where
  phase : Phase
  mood : MoodVal
  transcripts : List Entry
  errorMessage : Option String
  sources : List Nat
  nextStartTime : ℚ
  currentInput : String
  currentOutput : String
  isClosing : Bool
  sessionOpen : Bool
  ctxOpen : Bool
  nextId : Nat
  stopLog : List Nat
  schedLog : List (Nat × ℚ × ℚ)
deriving DecidableEq, Repr

/-- `cleanupResources` (`src/App.tsx`): close the transport session and
both audio contexts (best-effort), stop every registered playback handle,
clear the Active Playback Set; the closing flag is raised for the duration
and lowered at the end. -/
def cleanupResources (st : St) : St :=
  { st with
    sessionOpen := false
    ctxOpen := false
    stopLog := st.stopLog ++ st.sources
    sources := []
    isClosing := false }

/-- One iteration of the `for (const fc of functionCalls)` loop in
`onmessage` (`src/App.tsx` lines 184–201): on a `setMood` call, the guard
`detectedMood && Mood[detectedMood as keyof typeof Mood]` passes for any
truthy lookup — a member key sets the mood to that member, while an
inherited `Object.prototype` key also passes and corrupts the mood state
(React invokes an inherited function as a state updater); a falsy lookup
(absent key, or the empty string short-circuiting the `&&`) leaves the
mood unchanged. The call is acknowledged over the transport either way
(the send fires only when the session resolved non-null). -/
def handleToolCall (fc : ToolCall) (st : St) : St × List Out :=
  if fc.name = "setMood" then
    let st' :=
      match fc.moodArg with
      | none => st
      | some s =>
        if s = "" then st
        else
          match moodLookup s with
          | LookupResult.member mo => { st with mood := MoodVal.mood mo }
          | LookupResult.inherited k => { st with mood := MoodVal.corrupt k }
          | LookupResult.undef => st
    (st', if st.sessionOpen then [Out.toolResponse fc.id fc.name "ok"] else [])
  else (st, [])

/-- The whole `functionCalls` loop, in list order. -/
def handleToolCalls : List ToolCall → St → St × List Out
  | [], st => (st, [])
  | fc :: rest, st =>
    let r := handleToolCall fc st
    let r2 := handleToolCalls rest r.1
    (r2.1, r.2 ++ r2.2)

/-- `message.toolCall?.functionCalls` guard: absent list means no loop. -/
def handleToolCallsOpt : Option (List ToolCall) → St → St × List Out
  | none, st => (st, [])
  | some fcs, st => handleToolCalls fcs st

/-- Transcript-fragment accumulation (`src/App.tsx`): two independent
`if`s appending `text || ''` to the output and input accumulators. -/
def accumTranscripts (m : Msg) (st : St) : St :=
  let st1 :=
    match m.outputTranscriptionText with
    | some t => { st with currentOutput := st.currentOutput ++ t }
    | none => st
  match m.inputTranscriptionText with
  | some t => { st1 with currentInput := st1.currentInput ++ t }
  | none => st1

/-- The audio branch of `onmessage` in `src/App.tsx` lines 208–227:
set phase SPEAKING, then inside `try`: decode, build the buffer, schedule
it at `max(nextStartTime, ctx.currentTime)`, advance the cursor by the
buffer duration and add the handle to the Active Playback Set; a thrown
decode/playback error is caught and only logged. -/
def handleAudio (a : Option AudioChunk) (now : ℚ) (st : St) : St :=
  match a with
  | none => st
  | some c =>
    if st.isClosing then st
    else
      let st1 := { st with phase := Phase.SPEAKING }
      match c with
      | AudioChunk.malformed => st1
      | AudioChunk.ok _ dur =>
        let start := max st1.nextStartTime now
        { st1 with
          sources := st1.sources ++ [st1.nextId]
          schedLog := st1.schedLog ++ [(st1.nextId, start, dur)]
          nextId := st1.nextId + 1
          nextStartTime := start + dur }

/-- The audio branch of the variant component `src/unnamed/part_000`
lines 210–232: identical except that it schedules only when
`rawData.length > 0` (a zero-length chunk is skipped). -/
def handleAudioAlt (a : Option AudioChunk) (now : ℚ) (st : St) : St :=
  match a with
  | none => st
  | some c =>
    if st.isClosing then st
    else
      let st1 := { st with phase := Phase.SPEAKING }
      match c with
      | AudioChunk.malformed => st1
      | AudioChunk.ok len dur =>
        if len > 0 then
          let start := max st1.nextStartTime now
          { st1 with
            sources := st1.sources ++ [st1.nextId]
            schedLog := st1.schedLog ++ [(st1.nextId, start, dur)]
            nextId := st1.nextId + 1
            nextStartTime := start + dur }
        else st1

/-- The `turnComplete` branch (`src/App.tsx` lines 229–235): append one
transcript entry when the trimmed output accumulator is non-empty, reset
both accumulators, and move to LISTENING when the Active Playback Set is
already empty. -/
def handleTurnComplete (tc : Bool) (tstamp : Nat) (st : St) : St :=
  if tc then
    let out := jsTrim st.currentOutput
    let st1 :=
      if out ≠ "" then
        { st with transcripts :=
            st.transcripts ++ [⟨Role.model, out, tstamp, some st.mood⟩] }
      else st
    let st2 := { st1 with currentInput := "", currentOutput := "" }
    if st2.sources.isEmpty then { st2 with phase := Phase.LISTENING } else st2
  else st

/-- The `interrupted` branch (`src/App.tsx` lines 237–242): stop every
handle in the Active Playback Set, clear the set, reset the cursor to 0
and move to LISTENING. -/
def handleInterrupted (it : Bool) (st : St) : St :=
  if it then
    { st with
      stopLog := st.stopLog ++ st.sources
      sources := []
      nextStartTime := 0
      phase := Phase.LISTENING }
  else st

/-- The full `onmessage` callback (`src/App.tsx` lines 180–243): an early
return while closing; the tool-call loop; transcript accumulation; an
early return when audio is present but the output context is gone
(`if (!ctx) return`); then the audio, turn-complete and interrupted
branches in source order. Takes the device clock `now` and the wall clock
`tstamp` (`Date.now()`) as parameters. -/
def onmessage (m : Msg) (now : ℚ) (tstamp : Nat) (st : St) : St × List Out :=
  if st.isClosing then (st, [])
  else
    let r := handleToolCallsOpt m.toolCalls st
    let st2 := accumTranscripts m r.1
    if m.audio.isSome ∧ ¬ st2.ctxOpen then (st2, r.2)
    else
      let st3 := handleAudio m.audio now st2
      let st4 := handleTurnComplete m.turnComplete tstamp st3
      let st5 := handleInterrupted m.interrupted st4
      (st5, r.2)

/-- The `source.onended` callback (`src/App.tsx` lines 218–221): remove
the handle from the Active Playback Set; if the set is now empty and the
session is not closing, move to LISTENING. -/
def onended (h : Nat) (st : St) : St :=
  let st1 := { st with sources := st.sources.erase h }
  if st1.sources.isEmpty ∧ ¬ st1.isClosing then
    { st1 with phase := Phase.LISTENING }
  else st1

/-- The fixed error text of `src/App.tsx`'s `onerror`. -/
def networkErrorText : String := "Network stability issues. Reconnecting..."

/-- The overload-specific error text of `src/unnamed/part_000`. -/
def overloadText : String :=
  "Salin is currently overloaded. Please wait a moment and try again."

/-- The generic error text of `src/unnamed/part_000`. -/
def genericErrorText : String := "Connection encountered an issue."

/-- `onerror` in `src/App.tsx` lines 244–249: set the fixed message, go
to ERROR, tear down. The error description is ignored. -/
def onerrorMain (e : String) (st : St) : St :=
  let _ := e
  cleanupResources
    { st with errorMessage := some networkErrorText, phase := Phase.ERROR }

/-- Message classification in `src/unnamed/part_000` lines 262–271:
overload text when the description contains "unavailable" or "503",
generic text otherwise. -/
def classifyError (msg : String) : String :=
  if strIncludes msg "unavailable" || strIncludes msg "503" then overloadText
  else genericErrorText

/-- `onerror` in the variant `src/unnamed/part_000`: classify the
description (`err?.message` may be absent), go to ERROR, tear down. -/
def onerrorAlt (msg : Option String) (st : St) : St :=
  let text :=
    match msg with
    | some s => classifyError s
    | none => genericErrorText
  cleanupResources { st with errorMessage := some text, phase := Phase.ERROR }

/-- The `scriptProcessor.onaudioprocess` callback (`src/App.tsx` lines
165–172): drop the frame while closing; otherwise send it over the
transport when the session resolved non-null and the flag is still down. -/
def onaudioprocess (frame : List ℚ) (st : St) : St × List Out :=
  if st.isClosing then (st, [])
  else if st.sessionOpen && !st.isClosing then
    (st, [Out.realtimeAudio frame])
  else (st, [])

/-- The CLEAR button (`src/App.tsx` line 365): `setTranscripts([])`. -/
def clearTranscripts (st : St) : St :=
  { st with transcripts := [] }

/-- A sample transcript entry. -/
def sampleEntry : Entry := ⟨Role.model, "hello", 5, some (MoodVal.mood Mood.HAPPY)⟩

/-- A sample mid-session state: SPEAKING, two scheduled buffers, pending
transcript accumulators, session and output context open. -/
def sampleSt : St :=
  { phase := Phase.SPEAKING
    mood := MoodVal.mood Mood.NEUTRAL
    transcripts := [sampleEntry]
    errorMessage := none
    sources := [0, 1]
    nextStartTime := 3
    currentInput := "abc"
    currentOutput := " hi "
    isClosing := false
    sessionOpen := true
    ctxOpen := true
    nextId := 2
    stopLog := []
    schedLog := [(0, 0, 2), (1, 2, 1)] }

/-- A sample state whose closing flag is raised (mid-teardown). -/
def closingSt : St := { sampleSt with isClosing := true }

/-- A sample state with an empty Active Playback Set. -/
def drainedSt : St := { sampleSt with sources := [1] }

/-! ## Theorems -/

/-- C2: an "interrupted" signal on an open, non-closing session stops
every handle in the Active Playback Set, leaves the set empty, resets the
playback cursor to 0 and sets the phase to LISTENING. -/
theorem interrupt_clears_playback (st : St) (now : ℚ) (ts : Nat)
    (hc : st.isClosing = false) :
    (onmessage { interrupted := true } now ts st).1.sources = []
    ∧ (onmessage { interrupted := true } now ts st).1.nextStartTime = 0
    ∧ (onmessage { interrupted := true } now ts st).1.phase = Phase.LISTENING
    ∧ (onmessage { interrupted := true } now ts st).1.stopLog
        = st.stopLog ++ st.sources := by
  simp [onmessage, handleToolCallsOpt, accumTranscripts, handleAudio,
        handleTurnComplete, handleInterrupted, hc]

/-- Witness for C2 at a concrete state with two scheduled buffers. -/
theorem interrupt_clears_playback_witness :
    (onmessage { interrupted := true } 4 7 sampleSt).1.sources = []
    ∧ (onmessage { interrupted := true } 4 7 sampleSt).1.nextStartTime = 0
    ∧ (onmessage { interrupted := true } 4 7 sampleSt).1.phase = Phase.LISTENING
    ∧ (onmessage { interrupted := true } 4 7 sampleSt).1.stopLog
        = sampleSt.stopLog ++ sampleSt.sources :=
  interrupt_clears_playback sampleSt 4 7 rfl

/-- C3: a turn-complete signal appends exactly one transcript entry
(trimmed text, current mood) when the trimmed output accumulator is
non-empty, appends nothing when it is empty, and resets both
accumulators in either case. -/
theorem turn_complete_transcript (st : St) (now : ℚ) (ts : Nat)
    (hc : st.isClosing = false) :
    (jsTrim st.currentOutput ≠ "" →
       (onmessage { turnComplete := true } now ts st).1.transcripts =
         st.transcripts ++ [⟨Role.model, jsTrim st.currentOutput, ts, some st.mood⟩])
    ∧ (jsTrim st.currentOutput = "" →
       (onmessage { turnComplete := true } now ts st).1.transcripts
         = st.transcripts)
    ∧ (onmessage { turnComplete := true } now ts st).1.currentInput = ""
    ∧ (onmessage { turnComplete := true } now ts st).1.currentOutput = "" := by
  by_cases ht : jsTrim st.currentOutput = "" <;>
    by_cases hs : st.sources.isEmpty <;>
      simp [onmessage, handleToolCallsOpt, accumTranscripts, handleAudio,
            handleTurnComplete, handleInterrupted, hc, ht, hs]

/-- Witness for C3 at a concrete state whose output accumulator trims to
"hi". -/
theorem turn_complete_transcript_witness :
    (onmessage { turnComplete := true } 4 7 sampleSt).1.transcripts =
      sampleSt.transcripts
        ++ [⟨Role.model, "hi", 7, some (MoodVal.mood Mood.NEUTRAL)⟩]
    ∧ (onmessage { turnComplete := true } 4 7 sampleSt).1.currentInput = ""
    ∧ (onmessage { turnComplete := true } 4 7 sampleSt).1.currentOutput = "" := by
  have h := turn_complete_transcript sampleSt 4 7 rfl
  refine ⟨?_, h.2.2.1, h.2.2.2⟩
  rw [h.1 (by decide)]
  decide

/-- C4: whenever the Active Playback Set becomes empty while the session
is not closing — a buffer completing naturally (`onended`) or a
turn-complete signal finding the set already empty — the phase becomes
LISTENING. -/
theorem drained_goes_listening (st : St) (h : Nat) (now : ℚ) (ts : Nat)
    (hc : st.isClosing = false) :
    (st.sources.erase h = [] → (onended h st).phase = Phase.LISTENING)
    ∧ (st.sources = [] →
       (onmessage { turnComplete := true } now ts st).1.phase
         = Phase.LISTENING) := by
  constructor
  · intro he
    simp [onended, he, hc]
  · intro hs
    by_cases ht : jsTrim st.currentOutput = "" <;>
      simp [onmessage, handleToolCallsOpt, accumTranscripts, handleAudio,
            handleTurnComplete, handleInterrupted, hc, hs, ht]

/-- Witness for C4: the last buffer of `drainedSt` ends naturally, and a
turn-complete signal arrives at a state whose set is already empty. -/
theorem drained_goes_listening_witness :
    (onended 1 drainedSt).phase = Phase.LISTENING
    ∧ (onmessage { turnComplete := true } 4 7
         { drainedSt with sources := [] }).1.phase = Phase.LISTENING :=
  ⟨(drained_goes_listening drainedSt 1 4 7 rfl).1 (by decide),
   (drained_goes_listening { drainedSt with sources := [] } 1 4 7 rfl).2 rfl⟩

/-- C7: while the closing flag is set, a captured audio frame is dropped
silently (no send, no state change) and an inbound transport message
mutates nothing and sends nothing. -/
theorem closing_flag_noop (st : St) (m : Msg) (f : List ℚ) (now : ℚ)
    (ts : Nat) (hc : st.isClosing = true) :
    onaudioprocess f st = (st, []) ∧ onmessage m now ts st = (st, []) := by
  simp [onaudioprocess, onmessage, hc]

/-- Witness for C7 at a concrete mid-teardown state. -/
theorem closing_flag_noop_witness :
    onaudioprocess [1, 0] closingSt = (closingSt, [])
    ∧ onmessage { turnComplete := true, interrupted := true } 4 7 closingSt
        = (closingSt, []) :=
  closing_flag_noop closingSt
    { turnComplete := true, interrupted := true } [1, 0] 4 7 rfl

/-- C5, evaluated at the failing input: a `setMood` call whose argument
is the non-member string "toString" passes the truthiness guard through
the enum object's prototype chain, so the mood state does not stay
unchanged — it is corrupted — while a non-member, non-inherited string
("FURIOUS") leaves it unchanged and a member ("HAPPY") updates it;
in every case exactly one acknowledgement carrying the call's id is
sent. -/
theorem setmood_proto_bug :
    sampleSt.mood = MoodVal.mood Mood.NEUTRAL
    ∧ (handleToolCall ⟨"call-1", "setMood", some "toString"⟩ sampleSt).1.mood
      = MoodVal.corrupt "toString"
    ∧ (handleToolCall ⟨"call-1", "setMood", some "toString"⟩ sampleSt).2
      = [Out.toolResponse "call-1" "setMood" "ok"]
    ∧ (handleToolCall ⟨"call-2", "setMood", some "FURIOUS"⟩ sampleSt).1.mood
      = MoodVal.mood Mood.NEUTRAL
    ∧ (handleToolCall ⟨"call-2", "setMood", some "FURIOUS"⟩ sampleSt).2
      = [Out.toolResponse "call-2" "setMood" "ok"]
    ∧ (handleToolCall ⟨"call-3", "setMood", some "HAPPY"⟩ sampleSt).1.mood
      = MoodVal.mood Mood.HAPPY
    ∧ (handleToolCall ⟨"call-3", "setMood", some "HAPPY"⟩ sampleSt).2
      = [Out.toolResponse "call-3" "setMood" "ok"] := by
  refine ⟨rfl, by decide, by decide, by decide, by decide, by decide, by decide⟩

/-- C1 counterexample: in `src/App.tsx`'s `onerror`, an error whose
description contains "503" still yields the fixed text "Network stability
issues. Reconnecting...", which is not the overload-specific text. -/
theorem error_classification_counterexample :
    strIncludes "Error: 503 Service Unavailable" "503" = true
    ∧ (onerrorMain "Error: 503 Service Unavailable" sampleSt).errorMessage
        = some networkErrorText
    ∧ (networkErrorText == overloadText) = false := by
  refine ⟨by decide, rfl, by decide⟩

/-- C1 amended: every transport error moves both variants to ERROR and
tears the session down; the "503"/"unavailable" classification of the
user-facing message exists only in the `src/unnamed/part_000` variant,
while `src/App.tsx` always sets the fixed reconnecting text. -/
theorem transport_error_behavior (e : String) (st : St) :
    (onerrorMain e st).phase = Phase.ERROR
    ∧ (onerrorMain e st).sessionOpen = false
    ∧ (onerrorMain e st).sources = []
    ∧ (onerrorMain e st).stopLog = st.stopLog ++ st.sources
    ∧ (onerrorMain e st).errorMessage = some networkErrorText
    ∧ (onerrorAlt (some e) st).phase = Phase.ERROR
    ∧ (onerrorAlt (some e) st).sessionOpen = false
    ∧ (onerrorAlt (some e) st).sources = []
    ∧ (onerrorAlt (some e) st).stopLog = st.stopLog ++ st.sources
    ∧ (onerrorAlt (some e) st).errorMessage =
        some (if strIncludes e "unavailable" || strIncludes e "503"
              then overloadText else genericErrorText) := by
  refine ⟨rfl, rfl, rfl, rfl, rfl, rfl, rfl, rfl, rfl, ?_⟩
  simp [onerrorAlt, classifyError, cleanupResources]

/-- C9 counterexample: in `src/App.tsx`, a zero-length decoded chunk is
not a no-op for the playback caller — a zero-duration buffer is created,
scheduled and added to the Active Playback Set. -/
theorem zero_length_scheduled_counterexample :
    sampleSt.sources = [0, 1]
    ∧ (handleAudio (some (AudioChunk.ok 0 0)) 4 sampleSt).sources = [0, 1, 2]
    ∧ (handleAudio (some (AudioChunk.ok 0 0)) 4 sampleSt).schedLog
      = [(0, 0, 2), (1, 2, 1), (2, 4, 0)] := by
  refine ⟨rfl, rfl, by decide⟩

/-- C9 amended: a decode/playback error for a single chunk is dropped and
the session continues in both variants; a zero-length chunk is skipped
(nothing scheduled) in the `src/unnamed/part_000` variant, while
`src/App.tsx` schedules it as a zero-duration buffer. -/
theorem chunk_error_dropped (st : St) (now d : ℚ)
    (hc : st.isClosing = false) :
    handleAudio (some AudioChunk.malformed) now st
      = { st with phase := Phase.SPEAKING }
    ∧ handleAudioAlt (some AudioChunk.malformed) now st
      = { st with phase := Phase.SPEAKING }
    ∧ handleAudioAlt (some (AudioChunk.ok 0 d)) now st
      = { st with phase := Phase.SPEAKING }
    ∧ (handleAudio (some (AudioChunk.ok 0 d)) now st).sources
      = st.sources ++ [st.nextId] := by
  refine ⟨?_, ?_, ?_, ?_⟩ <;> simp [handleAudio, handleAudioAlt, hc]

/-- Witness for C9's amended theorem at a concrete mid-session state. -/
theorem chunk_error_dropped_witness :
    handleAudio (some AudioChunk.malformed) 4 sampleSt
      = { sampleSt with phase := Phase.SPEAKING }
    ∧ handleAudioAlt (some AudioChunk.malformed) 4 sampleSt
      = { sampleSt with phase := Phase.SPEAKING }
    ∧ handleAudioAlt (some (AudioChunk.ok 0 0)) 4 sampleSt
      = { sampleSt with phase := Phase.SPEAKING }
    ∧ (handleAudio (some (AudioChunk.ok 0 0)) 4 sampleSt).sources
      = sampleSt.sources ++ [sampleSt.nextId] :=
  chunk_error_dropped sampleSt 4 0 rfl

/-- The tool-call loop never touches the transcript log. -/
theorem handleToolCall_preserves_transcripts (fc : ToolCall) (st : St) :
    (handleToolCall fc st).1.transcripts = st.transcripts := by
  by_cases hn : fc.name = "setMood" <;> simp [handleToolCall, hn]
  cases fc.moodArg with
  | none => rfl
  | some s =>
    by_cases he : s = "" <;> simp [he]
    cases hmo : moodLookup s <;> simp [hmo]

/-- The whole tool-call loop never touches the transcript log. -/
theorem handleToolCalls_preserves_transcripts (fcs : List ToolCall)
    (st : St) : (handleToolCalls fcs st).1.transcripts = st.transcripts := by
  induction fcs generalizing st with
  | nil => rfl
  | cons fc rest ih =>
    simp [handleToolCalls, ih, handleToolCall_preserves_transcripts]

/-- The optional tool-call guard never touches the transcript log. -/
theorem handleToolCallsOpt_preserves_transcripts (o : Option (List ToolCall))
    (st : St) : (handleToolCallsOpt o st).1.transcripts = st.transcripts := by
  cases o with
  | none => rfl
  | some fcs => exact handleToolCalls_preserves_transcripts fcs st

/-- Transcript-fragment accumulation never touches the transcript log. -/
theorem accumTranscripts_preserves_transcripts (m : Msg) (st : St) :
    (accumTranscripts m st).transcripts = st.transcripts := by
  unfold accumTranscripts
  cases m.outputTranscriptionText <;> cases m.inputTranscriptionText <;> rfl

/-- The audio branch never touches the transcript log. -/
theorem handleAudio_preserves_transcripts (a : Option AudioChunk) (now : ℚ)
    (st : St) : (handleAudio a now st).transcripts = st.transcripts := by
  unfold handleAudio
  cases a with
  | none => rfl
  | some c =>
    by_cases hc : st.isClosing <;> cases c <;> simp [hc]

/-- The turn-complete branch only ever appends to the transcript log. -/
theorem handleTurnComplete_extends_transcripts (tc : Bool) (ts : Nat)
    (st : St) :
    ∃ tl, (handleTurnComplete tc ts st).transcripts = st.transcripts ++ tl := by
  unfold handleTurnComplete
  cases tc with
  | false => exact ⟨[], by simp⟩
  | true =>
    by_cases ht : jsTrim st.currentOutput = ""
    · refine ⟨[], ?_⟩
      simp [ht]
      split <;> rfl
    · refine ⟨[⟨Role.model, jsTrim st.currentOutput, ts, some st.mood⟩], ?_⟩
      simp [ht]
      split <;> rfl

/-- The interrupted branch never touches the transcript log. -/
theorem handleInterrupted_preserves_transcripts (it : Bool) (st : St) :
    (handleInterrupted it st).transcripts = st.transcripts := by
  unfold handleInterrupted
  cases it <;> simp

/-- The whole inbound-message handler only ever appends to the log. -/
theorem onmessage_extends_transcripts (m : Msg) (now : ℚ) (ts : Nat)
    (st : St) :
    ∃ tl, (onmessage m now ts st).1.transcripts = st.transcripts ++ tl := by
  by_cases hc : st.isClosing
  · exact ⟨[], by simp [onmessage, hc]⟩
  · by_cases hctx : m.audio.isSome
        ∧ ¬ (accumTranscripts m (handleToolCallsOpt m.toolCalls st).1).ctxOpen
    · refine ⟨[], ?_⟩
      simp [onmessage, hc, hctx, accumTranscripts_preserves_transcripts,
            handleToolCallsOpt_preserves_transcripts]
    · obtain ⟨tl, htl⟩ := handleTurnComplete_extends_transcripts
        m.turnComplete ts
        (handleAudio m.audio now
          (accumTranscripts m (handleToolCallsOpt m.toolCalls st).1))
      refine ⟨tl, ?_⟩
      simp only [Bool.not_eq_true] at hctx
      simp [onmessage, hc, hctx, handleInterrupted_preserves_transcripts,
            htl, handleAudio_preserves_transcripts,
            accumTranscripts_preserves_transcripts,
            handleToolCallsOpt_preserves_transcripts]

/-- C10 counterexample: the CLEAR button resets the Transcript Log to
empty, so an entry present before the operation is gone afterwards. -/
theorem transcript_clear_counterexample :
    sampleSt.transcripts = [sampleEntry]
    ∧ (clearTranscripts sampleSt).transcripts = [] := by
  refine ⟨rfl, rfl⟩

/-- C10 amended: across every session/transport operation (inbound
message, playback completion, transport error in either variant,
teardown, capture frame) the Transcript Log only ever grows by appended
entries — every prior entry survives unchanged in place; the sole
exception is the user-initiated CLEAR action, which resets the log to
empty. -/
theorem transcript_log_append_only (st : St) (m : Msg) (now : ℚ) (ts : Nat)
    (h : Nat) (f : List ℚ) (e : String) :
    (∃ tl, (onmessage m now ts st).1.transcripts = st.transcripts ++ tl)
    ∧ (onended h st).transcripts = st.transcripts
    ∧ (onerrorMain e st).transcripts = st.transcripts
    ∧ (onerrorAlt (some e) st).transcripts = st.transcripts
    ∧ (cleanupResources st).transcripts = st.transcripts
    ∧ (onaudioprocess f st).1.transcripts = st.transcripts
    ∧ (clearTranscripts st).transcripts = [] := by
  refine ⟨onmessage_extends_transcripts m now ts st, ?_, rfl, rfl, rfl, ?_, rfl⟩
  · unfold onended
    dsimp only
    split <;> rfl
  · unfold onaudioprocess
    split
    · rfl
    · split <;> rfl

/-- C6: each inbound buffer is scheduled to start at
`max(cursor, deviceClockNow)` and the cursor then advances by the
buffer's duration; with non-negative durations and a device clock that
has not outrun the cursor, three buffers of durations d1, d2, d3 start at
t, t+d1, t+d1+d2 (so they never overlap), and the cursor is monotonically
non-decreasing throughout. -/
theorem playback_scheduling (st : St) (now1 now2 now3 d1 d2 d3 : ℚ)
    (l1 l2 l3 : Nat) (hc : st.isClosing = false)
    (hd1 : 0 ≤ d1) (hd2 : 0 ≤ d2) (hd3 : 0 ≤ d3)
    (h2 : now2 ≤ max st.nextStartTime now1 + d1)
    (h3 : now3 ≤ max st.nextStartTime now1 + d1 + d2) :
    (handleAudio (some (AudioChunk.ok l3 d3)) now3
      (handleAudio (some (AudioChunk.ok l2 d2)) now2
        (handleAudio (some (AudioChunk.ok l1 d1)) now1 st))).schedLog
      = st.schedLog ++
        [(st.nextId, max st.nextStartTime now1, d1),
         (st.nextId + 1, max st.nextStartTime now1 + d1, d2),
         (st.nextId + 2, max st.nextStartTime now1 + d1 + d2, d3)]
    ∧ (handleAudio (some (AudioChunk.ok l3 d3)) now3
        (handleAudio (some (AudioChunk.ok l2 d2)) now2
          (handleAudio (some (AudioChunk.ok l1 d1)) now1 st))).nextStartTime
      = max st.nextStartTime now1 + d1 + d2 + d3
    ∧ st.nextStartTime
      ≤ (handleAudio (some (AudioChunk.ok l1 d1)) now1 st).nextStartTime
    ∧ (handleAudio (some (AudioChunk.ok l1 d1)) now1 st).nextStartTime
      ≤ (handleAudio (some (AudioChunk.ok l2 d2)) now2
          (handleAudio (some (AudioChunk.ok l1 d1)) now1 st)).nextStartTime
    ∧ (handleAudio (some (AudioChunk.ok l2 d2)) now2
        (handleAudio (some (AudioChunk.ok l1 d1)) now1 st)).nextStartTime
      ≤ (handleAudio (some (AudioChunk.ok l3 d3)) now3
          (handleAudio (some (AudioChunk.ok l2 d2)) now2
            (handleAudio (some (AudioChunk.ok l1 d1)) now1 st))).nextStartTime := by
  have e2 : max (max st.nextStartTime now1 + d1) now2
      = max st.nextStartTime now1 + d1 := max_eq_left h2
  have e3 : max (max st.nextStartTime now1 + d1 + d2) now3
      = max st.nextStartTime now1 + d1 + d2 := max_eq_left h3
  have hle : st.nextStartTime ≤ max st.nextStartTime now1 :=
    le_max_left _ _
  refine ⟨?_, ?_, ?_, ?_, ?_⟩
  · simp [handleAudio, hc, e2, e3]
  · simp [handleAudio, hc, e2, e3]
  · simp [handleAudio, hc]
    linarith
  · simp [handleAudio, hc, e2]
    linarith
  · simp [handleAudio, hc, e2, e3]
    linarith

/-- Witness for C6 at a concrete state (cursor 3, device clocks 4, 5, 7,
durations 2, 1, 5): starts 4, 6, 7 and final cursor 12. -/
theorem playback_scheduling_witness :
    (handleAudio (some (AudioChunk.ok 3 5)) 7
      (handleAudio (some (AudioChunk.ok 2 1)) 5
        (handleAudio (some (AudioChunk.ok 4 2)) 4 sampleSt))).schedLog
      = sampleSt.schedLog ++ [(2, 4, 2), (3, 6, 1), (4, 7, 5)]
    ∧ (handleAudio (some (AudioChunk.ok 3 5)) 7
        (handleAudio (some (AudioChunk.ok 2 1)) 5
          (handleAudio (some (AudioChunk.ok 4 2)) 4 sampleSt))).nextStartTime
      = 12 := by
  have h := playback_scheduling sampleSt 4 5 7 2 1 5 4 2 3 rfl
    (by norm_num) (by norm_num) (by norm_num)
    (by norm_num [sampleSt, max_def]) (by norm_num [sampleSt, max_def])
  refine ⟨?_, ?_⟩
  · rw [h.1]
    norm_num [sampleSt, max_def]
  · rw [h.2.1]
    norm_num [sampleSt, max_def]

end Salin
